import Mathlib

/-!
Shallow embedding of `src/button_handler.py` (class `ButtonHandler`) from the
InkyPiEs repository, together with proofs of the spec's testable properties.

The embedding follows the source closely:
* `handleButtonEvent` embeds `_handle_button_event` (lines 132-183);
* `workerBody` / `processButtonAsync` embed `_process_button_async`
  (lines 185-242), with each external collaborator call supplied through a
  `WorkerEnv` record whose `Except` results model Python exceptions;
* `startBH` embeds `start` (lines 50-84);
* `simulateButtonPress` embeds `simulate_button_press` (lines 244-255);
* `GateSys` / `Step` / `Reach` give a small-step interleaving semantics of the
  poll-loop thread and the dispatch-worker threads around the shared
  `is_processing` flag and `processing_lock`, at the granularity of the
  individual reads/writes in the source.

Time is modelled by the rationals (`time.time()` values); machine floats play
no essential role in the debounce comparison and `DEBOUNCE_TIME = 0.3` is
exact in `ℚ`.
-/

/-- Button labels; `LABELS = ["A", "B", "C", "D"]` in the source. -/
inductive Label
  | A | B | C | D
deriving DecidableEq, Repr

/-- GPIO pins for buttons (BCM numbering): `SW_A = 5`, `SW_B = 6`,
`SW_C = 16`, `SW_D = 24`; `BUTTONS = [SW_A, SW_B, SW_C, SW_D]`. -/
def BUTTONS : List ℕ := [5, 6, 16, 24]

/-- The `LABELS` list of the source, parallel to `BUTTONS`. -/
def LABELS : List Label := [.A, .B, .C, .D]

/-- Anti-bounce configuration: `DEBOUNCE_TIME = 0.3` seconds. -/
def DEBOUNCE_TIME : ℚ := 3 / 10

/-- The mutable per-handler state read and written by `_handle_button_event`:
`self.last_press_time` (a dict from label to timestamp, so an absent key is
modelled by `none`; `dict.get(label, 0)` is `Option.getD 0`) and the shared
`self.is_processing` flag. -/
structure HState where
  lastPressTime : Label → Option ℚ
  isProcessing : Bool

/-- State installed by `__init__`: `self.last_press_time = {}` and
`self.is_processing = False`. -/
def initHState : HState :=
  { lastPressTime := fun _ => none, isProcessing := false }

/-- Result of `self.last_press_time.get(label, 0)`. -/
def lastTimeOf (s : HState) (l : Label) : ℚ :=
  (s.lastPressTime l).getD 0

/-- Resolution of a raw line offset to a button label:
`index = self.offsets.index(event.line_offset)` followed by
`label = self.LABELS[index]`.  `none` models the `ValueError` / `IndexError`
that the surrounding `try` would catch. -/
def labelFor (offsets : List ℕ) (lineOffset : ℕ) : Option Label :=
  (offsets.indexOf? lineOffset).bind fun i => LABELS[i]?

/-- Observable outcome of one `_handle_button_event` call. -/
inductive HandlerResult
  | errorCaught        -- the `except` branch at lines 179-183 ran
  | debounced          -- discarded by PROTECTION 1 (line 149-152)
  | droppedBusy        -- discarded by PROTECTION 2 (line 158-160)
  | dispatched (l : Label)  -- a processing thread was spawned (line 171-177)
deriving DecidableEq, Repr

/-- Embedding of `_handle_button_event` (lines 132-183).  The function takes
the configured `self.offsets`, the current handler state, the event's
`line_offset` and `time.time()`, and returns the new state together with the
outcome.  Note that the `except` branch (lines 179-183) sets
`self.is_processing = False` under the lock. -/
def handleButtonEvent (offsets : List ℕ) (s : HState) (lineOffset : ℕ)
    (currentTime : ℚ) : HState × HandlerResult :=
  match labelFor offsets lineOffset with
  | none => ({ s with isProcessing := false }, .errorCaught)
  | some label =>
    -- PROTECTION 1: Debouncing per button
    let lastTime := lastTimeOf s label
    let timeSinceLastPress := currentTime - lastTime
    if timeSinceLastPress < DEBOUNCE_TIME then
      (s, .debounced)
    else
      -- Update timestamp of this press
      let s1 : HState :=
        { s with lastPressTime :=
            fun l => if l = label then some currentTime else s.lastPressTime l }
      -- PROTECTION 2: Global processing lock
      if s1.isProcessing then
        (s1, .droppedBusy)
      else
        ({ s1 with isProcessing := true }, .dispatched label)

/-! ## Dispatch worker: `_process_button_async` (lines 185-242) -/

/-- The `refresh_info` object: `plugin_id` (possibly `None`) and the mutable
`image_hash` field written at line 229. -/
structure RefreshInfo where
  pluginId : Option String
  imageHash : Option ℕ
deriving DecidableEq, Repr

/-- The plugin instance obtained from `get_plugin_instance`: whether
`hasattr(plugin, 'handle_button')` holds, and
`plugin.config.get("image_settings", [])` (settings are opaque values). -/
structure Plugin where
  hasHandleButton : Bool
  imageSettings : List ℕ
deriving DecidableEq, Repr

/-- Possible results of `plugin.handle_button(label, device_config)`:
a PIL image (opaque content, modelled by `ℕ`), some other non-`None` value,
or `None`. -/
inductive HBResult
  | image (img : ℕ)
  | other (v : String)
  | noneV
deriving DecidableEq, Repr

/-- The external collaborators called by `_process_button_async`.  Each call
that can raise a Python exception is given as an `Except String` value; the
`String` is the exception's message. -/
structure WorkerEnv where
  /-- `self.device_config.get_refresh_info()` -/
  getRefreshInfo : Except String (Option RefreshInfo)
  /-- `self.device_config.get_plugin(plugin_id)`; `none` models a falsy
  (not-found) plugin config.  The config itself is opaque. -/
  getPlugin : String → Except String (Option ℕ)
  /-- `get_plugin_instance(plugin_config)` -/
  getPluginInstance : ℕ → Except String Plugin
  /-- `plugin.handle_button(label, self.device_config)` -/
  handleButton : Label → Except String HBResult
  /-- `self.display_manager.display_image(result, image_settings=...)` -/
  display : ℕ → List ℕ → Except String Unit
  /-- `compute_image_hash(result)` -/
  computeHash : ℕ → Except String ℕ
  /-- `self.device_config.write_config()` -/
  writeConfig : Except String Unit

/-- Externally observable effects of one dispatch worker, in program order. -/
inductive WEffect
  | displayImage (img : ℕ) (settings : List ℕ)  -- Display Sink delivery (line 221)
  | computeHash (img : ℕ)                       -- fingerprint computation (line 228)
  | setImageHash (h : ℕ)                        -- `refresh_info.image_hash = ...` (line 229)
  | writeConfig                                 -- `write_config()` (line 230)
  | logOtherResult (v : String)                 -- `logger.debug(f"Plugin returned: ...")` (line 234)
  | releaseGate                                 -- `with lock: is_processing = False` (lines 240-241)
deriving DecidableEq, Repr

/-- Effects of the `try` block of `_process_button_async` (lines 190-234),
paired with whether an exception was caught (and logged) at lines 236-237.
Each `match` on an `Except` mirrors the corresponding Python call; an
`.error` result aborts the rest of the block, keeping the effects already
performed. -/
def workerBody (env : WorkerEnv) (label : Label) : List WEffect × Bool :=
  match env.getRefreshInfo with
  | .error _ => ([], true)
  | .ok ri =>
    -- plugin_id = refresh_info.plugin_id if refresh_info else None
    let pluginId : Option String := ri.bind fun r => r.pluginId
    match pluginId with
    | none => ([], false)              -- `if not plugin_id: ... return`
    | some pid =>
      if pid = "" then ([], false)     -- the empty string is also falsy
      else
        match env.getPlugin pid with
        | .error _ => ([], true)
        | .ok none => ([], false)      -- `if not plugin_config: ... return`
        | .ok (some pconf) =>
          match env.getPluginInstance pconf with
          | .error _ => ([], true)
          | .ok plugin =>
            if plugin.hasHandleButton = false then
              ([], false)              -- `if not hasattr(plugin, 'handle_button'): return`
            else
              match env.handleButton label with
              | .error _ => ([], true)
              | .ok (.image img) =>
                match env.display img plugin.imageSettings with
                | .error _ => ([.displayImage img plugin.imageSettings], true)
                | .ok _ =>
                  match env.computeHash img with
                  | .error _ =>
                    ([.displayImage img plugin.imageSettings, .computeHash img], true)
                  | .ok h =>
                    match env.writeConfig with
                    | .error _ =>
                      ([.displayImage img plugin.imageSettings, .computeHash img,
                        .setImageHash h], true)
                    | .ok _ =>
                      ([.displayImage img plugin.imageSettings, .computeHash img,
                        .setImageHash h, .writeConfig], false)
              | .ok (.other v) => ([.logOtherResult v], false)
              | .ok .noneV => ([], false)

/-- Result of a whole `_process_button_async` run. -/
structure WorkerRes where
  effects : List WEffect
  exceptionLogged : Bool
deriving DecidableEq, Repr

/-- Embedding of `_process_button_async`: the `try` block followed by the
`finally` block, which always appends the gate release (lines 238-242). -/
def processButtonAsync (env : WorkerEnv) (label : Label) : WorkerRes :=
  let r := workerBody env label
  { effects := r.1 ++ [.releaseGate], exceptionLogged := r.2 }

/-- Value of the `is_processing` flag after a worker's effect trace has been
applied to an initial flag value: only `releaseGate` touches the flag, and it
sets it to `false`. -/
def busyAfter (b : Bool) (effs : List WEffect) : Bool :=
  effs.foldl (fun acc e => match e with | .releaseGate => false | _ => acc) b

/-! ## Lifecycle: `start` (lines 50-84) -/

/-- The spec's name for a fatal start failure.  The source defines no such
exception type; the inductive exists so that "the caller observes a
`HardwareInitError` through `start()`'s return value" can be stated. -/
inductive StartError
  | hardwareInitError
deriving DecidableEq, Repr

/-- Inputs that determine which branch `start` takes:
`self.thread and self.thread.is_alive()` (line 52), and the outcome of the
GPIO acquisition block (lines 58-71: `gpiod.LineSettings`,
`find_chip_by_platform`, `line_offset_from_id`, `request_lines`), which on
success yields the per-line offsets. -/
structure StartEnv where
  threadAlive : Bool
  acquire : Except String (List ℕ)

/-- Result of one `start` call.  `ret` is the Python return value as the
caller sees it: the source has only bare `return`s and a swallowed
exception, so every path yields `None` (`Option.none`); `launchedThread` is
whether line 78 (`self.thread.start()`) ran; `running` is `self.running`
afterwards; `loggedError` is the message of `logger.error` at line 83. -/
structure StartRes where
  running : Bool
  launchedThread : Bool
  ret : Option StartError
  loggedError : Option String
deriving DecidableEq, Repr

/-- Embedding of `start` (lines 50-84).  `runningIn` is `self.running` before
the call. -/
def startBH (env : StartEnv) (runningIn : Bool) : StartRes :=
  if env.threadAlive then
    -- logger.warning("ButtonHandler already running"); return
    { running := runningIn, launchedThread := false, ret := none,
      loggedError := none }
  else
    match env.acquire with
    | .error e =>
      -- except branch (lines 82-84): log the cause, self.running = False
      { running := false, launchedThread := false, ret := none,
        loggedError := some e }
    | .ok _ =>
      -- self.running = True; thread started (lines 76-78)
      { running := true, launchedThread := true, ret := none,
        loggedError := none }

/-! ## Simulation hook: `simulate_button_press` (lines 244-255) -/

/-- The `LABELS` list as the strings of the source, for the membership test
`if button_label not in self.LABELS` at line 251. -/
def LABELS_STR : List String := ["A", "B", "C", "D"]

/-- Everything `simulate_button_press` does.  The body of the function
consists solely of the label check and two log statements; in particular it
never constructs an edge event and never calls `_handle_button_event`. -/
inductive SimEffect
  | logInvalidLabel (lbl : String)  -- logger.error (line 252)
  | logSimulating (lbl : String)    -- logger.info (line 255)
deriving DecidableEq, Repr

/-- Embedding of `simulate_button_press` (lines 244-255): the full list of
effects of one call.  It reads and writes no handler state. -/
def simulateButtonPress (buttonLabel : String) : List SimEffect :=
  if buttonLabel ∈ LABELS_STR then [.logSimulating buttonLabel]
  else [.logInvalidLabel buttonLabel]

/-! ## Interleaving semantics of the gate

A small-step transition system over the shared state touched by
`_handle_button_event` (poll-loop thread) and `_process_button_async`
(worker threads): the `is_processing` flag, the `processing_lock`, and the
`last_press_time` map.  Each transition is one of the individual shared-state
accesses of the source, so any thread interleaving of the real program is a
path of this system.  Only events for the four configured buttons are
modelled (the claims quantify over presses of the four buttons); worker
threads are symmetric, so the multiset of worker program counters is kept as
four counters. -/

/-- Program counter of the poll-loop thread inside `_handle_button_event`.
`idle` is anywhere outside the gate region (between events, or in the
debounce code).  The busy-flag read at line 158 takes `preCheck` to `idle`
(event dropped) or `checked`; lines 165-166 are `checked → locked → setDone`;
the `with` block exit and `thread.start()` are `setDone → toSpawn → idle`. -/
inductive PollPC
  | idle
  | preCheck (l : Label)  -- passed debounce, timestamp written, about to read the flag
  | checked (l : Label)   -- read `is_processing = False`, about to acquire the lock
  | locked (l : Label)    -- holds `processing_lock`, about to write the flag
  | setDone (l : Label)   -- wrote `is_processing = True`, about to release the lock
  | toSpawn (l : Label)   -- released the lock, about to start the worker thread
deriving DecidableEq, Repr

/-- Who holds `processing_lock`. -/
inductive LockSt
  | free
  | byPoll
  | byWorker
deriving DecidableEq, Repr

/-- Shared state plus the program counters of all live threads.  A worker
thread walks `nBody → nWantLock → nHaveLock → nCleared → (exits)`:
`nBody` counts workers still inside the `try` block (lines 190-237),
`nWantLock` those at line 240 waiting for the lock, `nHaveLock` those holding
the lock about to write the flag (line 241), `nCleared` those that wrote
`is_processing = False` and only have the lock release and a debug log left. -/
structure GateSys where
  busy : Bool                       -- `self.is_processing`
  lock : LockSt                     -- `self.processing_lock`
  lastPress : Label → Option ℚ      -- `self.last_press_time`
  poll : PollPC
  nBody : ℕ
  nWantLock : ℕ
  nHaveLock : ℕ
  nCleared : ℕ

/-- Initial state from `__init__`: flag false, lock free, empty timestamp
map, no workers, poll thread idle. -/
def initSys : GateSys :=
  { busy := false, lock := .free, lastPress := fun _ => none,
    poll := .idle, nBody := 0, nWantLock := 0, nHaveLock := 0, nCleared := 0 }

/-- Number of dispatch workers that are still performing their dispatched
work, i.e. have not yet executed `self.is_processing = False` at line 241
(after that write a worker only releases the lock, logs, and exits). -/
def activeWorkers (s : GateSys) : ℕ :=
  s.nBody + s.nWantLock + s.nHaveLock

/-- The atomic actions; `i` in the names below refers to source lines of
`src/src/button_handler.py`. -/
inductive GAct
  | arriveDebounced (l : Label) (t : ℚ)  -- lines 143-152, event discarded
  | arriveAccepted (l : Label) (t : ℚ)   -- lines 143-155, timestamp written
  | checkBusyDrop (l : Label)            -- line 158, flag read true: drop
  | checkBusyPass (l : Label)            -- line 158, flag read false
  | acquirePoll (l : Label)              -- line 165, lock acquired
  | setBusyTrue (l : Label)              -- line 166, flag written
  | releasePoll (l : Label)              -- line 166 end of `with`, lock released
  | spawnWorker (l : Label)              -- line 177, worker thread started
  | finishBody                           -- worker reaches the `finally` block
  | acquireWorker                        -- line 240, lock acquired
  | setBusyFalse                         -- line 241, flag written
  | releaseWorker                        -- end of `with`, lock released; worker exits
deriving DecidableEq, Repr

/-- Small-step relation: `Step s a s'` when action `a` moves the system from
`s` to `s'`.  The premises of each constructor are exactly the enabling
conditions of the corresponding source line; in particular `checkBusyDrop` /
`checkBusyPass` (the `if self.is_processing` read at line 158) have no
premise about the lock — the source performs that read without holding
`processing_lock`. -/
inductive Step : GateSys → GAct → GateSys → Prop
  | arriveDebounced (s : GateSys) (l : Label) (t : ℚ)
      (hp : s.poll = .idle)
      (hd : t - (s.lastPress l).getD 0 < DEBOUNCE_TIME) :
      Step s (.arriveDebounced l t) s
  | arriveAccepted (s : GateSys) (l : Label) (t : ℚ)
      (hp : s.poll = .idle)
      (hd : ¬ t - (s.lastPress l).getD 0 < DEBOUNCE_TIME) :
      Step s (.arriveAccepted l t)
        { s with poll := .preCheck l,
                 lastPress := fun x => if x = l then some t else s.lastPress x }
  | checkBusyDrop (s : GateSys) (l : Label)
      (hp : s.poll = .preCheck l) (hb : s.busy = true) :
      Step s (.checkBusyDrop l) { s with poll := .idle }
  | checkBusyPass (s : GateSys) (l : Label)
      (hp : s.poll = .preCheck l) (hb : s.busy = false) :
      Step s (.checkBusyPass l) { s with poll := .checked l }
  | acquirePoll (s : GateSys) (l : Label)
      (hp : s.poll = .checked l) (hl : s.lock = .free) :
      Step s (.acquirePoll l) { s with poll := .locked l, lock := .byPoll }
  | setBusyTrue (s : GateSys) (l : Label)
      (hp : s.poll = .locked l) :
      Step s (.setBusyTrue l) { s with poll := .setDone l, busy := true }
  | releasePoll (s : GateSys) (l : Label)
      (hp : s.poll = .setDone l) (hl : s.lock = .byPoll) :
      Step s (.releasePoll l) { s with poll := .toSpawn l, lock := .free }
  | spawnWorker (s : GateSys) (l : Label)
      (hp : s.poll = .toSpawn l) :
      Step s (.spawnWorker l) { s with poll := .idle, nBody := s.nBody + 1 }
  | finishBody (s : GateSys)
      (hw : 0 < s.nBody) :
      Step s .finishBody
        { s with nBody := s.nBody - 1, nWantLock := s.nWantLock + 1 }
  | acquireWorker (s : GateSys)
      (hw : 0 < s.nWantLock) (hl : s.lock = .free) :
      Step s .acquireWorker
        { s with nWantLock := s.nWantLock - 1, nHaveLock := s.nHaveLock + 1,
                 lock := .byWorker }
  | setBusyFalse (s : GateSys)
      (hw : 0 < s.nHaveLock) :
      Step s .setBusyFalse
        { s with nHaveLock := s.nHaveLock - 1, nCleared := s.nCleared + 1,
                 busy := false }
  | releaseWorker (s : GateSys)
      (hw : 0 < s.nCleared) (hl : s.lock = .byWorker) :
      Step s .releaseWorker
        { s with nCleared := s.nCleared - 1, lock := .free }

/-- Reachability from the `__init__` state. -/
inductive Reach : GateSys → Prop
  | init : Reach initSys
  | step (s : GateSys) (a : GAct) (s' : GateSys) :
      Reach s → Step s a s' → Reach s'

/-- Helper: whether an action is executed by a dispatch-worker thread. -/
def GAct.isWorkerAct : GAct → Bool
  | .finishBody | .acquireWorker | .setBusyFalse | .releaseWorker => true
  | _ => false

/-- The `is_processing` flag as a number. -/
def busyN (s : GateSys) : ℕ := cond s.busy 1 0

/-- A lock state as a number (0 free, 1 poll thread, 2 a worker). -/
def lockNP : LockSt → ℕ
  | .free => 0
  | .byPoll => 1
  | .byWorker => 2

/-- 1 while the poll thread has read the flag as false but not yet started
the worker (a dispatch is pending). -/
def dispPendingP : PollPC → ℕ
  | .checked _ => 1
  | .locked _ => 1
  | .setDone _ => 1
  | .toSpawn _ => 1
  | _ => 0

/-- 1 while the poll thread has written `is_processing = True` but not yet
started the worker. -/
def pollSetP : PollPC → ℕ
  | .setDone _ => 1
  | .toSpawn _ => 1
  | _ => 0

/-- 1 while the poll thread holds the lock. -/
def pollLockP : PollPC → ℕ
  | .locked _ => 1
  | .setDone _ => 1
  | _ => 0

/-- 1 while the poll thread is between acquiring the lock and starting the
worker. -/
def pollMidP : PollPC → ℕ
  | .locked _ => 1
  | .setDone _ => 1
  | .toSpawn _ => 1
  | _ => 0

/-- Number of workers inside the `with self.processing_lock` block of the
`finally` clause. -/
def lockedWorkers (s : GateSys) : ℕ := s.nHaveLock + s.nCleared

theorem pollSetP_le_dispPendingP (p : PollPC) : pollSetP p ≤ dispPendingP p := by
  cases p <;> simp [pollSetP, dispPendingP]

/-- Inductive invariant of the gate: at most one worker is active (counting a
pending dispatch); the flag is up exactly when a worker is active or a
dispatch has been committed; the lock state matches who is inside a `with`
block; and while the poll thread is between its lock acquisition and the
thread start, no worker thread exists at all. -/
def GateInv (s : GateSys) : Prop :=
  activeWorkers s + dispPendingP s.poll ≤ 1 ∧
  busyN s = activeWorkers s + pollSetP s.poll ∧
  (lockNP s.lock = 1 ↔ pollLockP s.poll = 1) ∧
  (lockNP s.lock = 2 ↔ lockedWorkers s = 1) ∧
  lockedWorkers s ≤ 1 ∧
  (pollMidP s.poll = 1 → s.nBody + s.nWantLock + s.nHaveLock + s.nCleared = 0)

theorem gateInv_init : GateInv initSys := by
  refine ⟨?_, ?_, ?_, ?_, ?_, ?_⟩ <;>
    simp [GateInv, initSys, activeWorkers, dispPendingP, pollSetP, pollLockP,
      pollMidP, lockedWorkers, busyN, lockNP]

theorem gateInv_preserved {s : GateSys} {a : GAct} {s' : GateSys}
    (hI : GateInv s) (h : Step s a s') : GateInv s' := by
  obtain ⟨h1, h2, h3, h4, h5, h6⟩ := hI
  cases h with
  | arriveDebounced l t hp hd => exact ⟨h1, h2, h3, h4, h5, h6⟩
  | arriveAccepted l t hp hd =>
    simp only [GateInv, activeWorkers, dispPendingP, pollSetP, pollLockP,
      pollMidP, lockedWorkers, busyN, hp] at *
    refine ⟨?_, ?_, ?_, ?_, ?_, ?_⟩ <;>
      first
      | trivial
      | omega
      | · try simp only [true_iff, iff_true, false_iff, iff_false, true_implies] at *
          first | trivial | omega
  | checkBusyDrop l hp hb =>
    simp only [GateInv, activeWorkers, dispPendingP, pollSetP, pollLockP,
      pollMidP, lockedWorkers, busyN, hp, hb, cond_true] at *
    refine ⟨?_, ?_, ?_, ?_, ?_, ?_⟩ <;>
      first
      | trivial
      | omega
      | · try simp only [true_iff, iff_true, false_iff, iff_false, true_implies] at *
          first | trivial | omega
  | checkBusyPass l hp hb =>
    simp only [GateInv, activeWorkers, dispPendingP, pollSetP, pollLockP,
      pollMidP, lockedWorkers, busyN, hp, hb, cond_false] at *
    refine ⟨?_, ?_, ?_, ?_, ?_, ?_⟩ <;>
      first
      | trivial
      | omega
      | · try simp only [true_iff, iff_true, false_iff, iff_false, true_implies] at *
          first | trivial | omega
  | acquirePoll l hp hl =>
    simp only [GateInv, activeWorkers, dispPendingP, pollSetP, pollLockP,
      pollMidP, lockedWorkers, busyN, lockNP, hp, hl] at *
    refine ⟨?_, ?_, ?_, ?_, ?_, ?_⟩ <;>
      first
      | trivial
      | omega
      | · try simp only [true_iff, iff_true, false_iff, iff_false, true_implies] at *
          first | trivial | omega
  | setBusyTrue l hp =>
    simp only [GateInv, activeWorkers, dispPendingP, pollSetP, pollLockP,
      pollMidP, lockedWorkers, busyN, hp, cond_true] at *
    refine ⟨?_, ?_, ?_, ?_, ?_, ?_⟩ <;>
      first
      | trivial
      | omega
      | · try simp only [true_iff, iff_true, false_iff, iff_false, true_implies] at *
          first | trivial | omega
  | releasePoll l hp hl =>
    simp only [GateInv, activeWorkers, dispPendingP, pollSetP, pollLockP,
      pollMidP, lockedWorkers, busyN, lockNP, hp, hl] at *
    refine ⟨?_, ?_, ?_, ?_, ?_, ?_⟩ <;>
      first
      | trivial
      | omega
      | · try simp only [true_iff, iff_true, false_iff, iff_false, true_implies] at *
          first | trivial | omega
  | spawnWorker l hp =>
    simp only [GateInv, activeWorkers, dispPendingP, pollSetP, pollLockP,
      pollMidP, lockedWorkers, busyN, hp] at *
    refine ⟨?_, ?_, ?_, ?_, ?_, ?_⟩ <;>
      first
      | trivial
      | omega
      | · try simp only [true_iff, iff_true, false_iff, iff_false, true_implies] at *
          first | trivial | omega
  | finishBody hw =>
    simp only [GateInv, activeWorkers, lockedWorkers, busyN] at *
    have hsd := pollSetP_le_dispPendingP s.poll
    refine ⟨?_, ?_, ?_, ?_, ?_, ?_⟩ <;>
      first
      | trivial
      | omega
      | · try simp only [true_iff, iff_true, false_iff, iff_false, true_implies] at *
          first | trivial | omega
  | acquireWorker hw hl =>
    simp only [GateInv, activeWorkers, lockedWorkers, busyN, lockNP, hl] at *
    have hsd := pollSetP_le_dispPendingP s.poll
    refine ⟨?_, ?_, ?_, ?_, ?_, ?_⟩ <;>
      first
      | trivial
      | omega
      | · try simp only [true_iff, iff_true, false_iff, iff_false, true_implies] at *
          first | trivial | omega
  | setBusyFalse hw =>
    simp only [GateInv, activeWorkers, lockedWorkers, busyN, cond_false] at *
    have hsd := pollSetP_le_dispPendingP s.poll
    refine ⟨?_, ?_, ?_, ?_, ?_, ?_⟩ <;>
      first
      | trivial
      | omega
      | · try simp only [true_iff, iff_true, false_iff, iff_false, true_implies] at *
          first | trivial | omega
  | releaseWorker hw hl =>
    simp only [GateInv, activeWorkers, lockedWorkers, busyN, lockNP, hl] at *
    have hsd := pollSetP_le_dispPendingP s.poll
    refine ⟨?_, ?_, ?_, ?_, ?_, ?_⟩ <;>
      first
      | trivial
      | omega
      | · try simp only [true_iff, iff_true, false_iff, iff_false, true_implies] at *
          first | trivial | omega

theorem reach_gateInv {s : GateSys} (h : Reach s) : GateInv s := by
  induction h with
  | init => exact gateInv_init
  | step s a s' _hr hstep ih => exact gateInv_preserved ih hstep

/-! ## Claim theorems -/

/-- A handler state in which a worker is currently processing
(`is_processing` true) and no press has been recorded yet. -/
def handlerStateBusy : HState :=
  { lastPressTime := fun _ => none, isProcessing := true }

/-- C2: for events on a configured line resolving to label `l`:
an event arriving strictly less than `DEBOUNCE_TIME` after that button's
last accepted press (the recorded `last_press_time`) is discarded with the
state unchanged; an event arriving more than the window later is accepted by
the debounce filter (not `debounced`, and the timestamp is recorded); a
press of `l` never changes another button's recorded timestamp; and the
debounce decision depends only on the pressed button's own timestamp, so
presses of different buttons never debounce each other. -/
theorem debounce_per_button (offsets : List ℕ) (s s2 : HState) (lineOffset : ℕ)
    (t : ℚ) (l l' : Label) (hl : labelFor offsets lineOffset = some l) :
    (t - lastTimeOf s l < DEBOUNCE_TIME →
      handleButtonEvent offsets s lineOffset t = (s, .debounced)) ∧
    (DEBOUNCE_TIME < t - lastTimeOf s l →
      (handleButtonEvent offsets s lineOffset t).2 ≠ HandlerResult.debounced ∧
      (handleButtonEvent offsets s lineOffset t).1.lastPressTime l = some t) ∧
    (l' ≠ l →
      (handleButtonEvent offsets s lineOffset t).1.lastPressTime l' =
        s.lastPressTime l') ∧
    (lastTimeOf s l = lastTimeOf s2 l →
      ((handleButtonEvent offsets s lineOffset t).2 = HandlerResult.debounced ↔
        (handleButtonEvent offsets s2 lineOffset t).2 = HandlerResult.debounced)) := by
  refine ⟨?_, ?_, ?_, ?_⟩
  · intro h
    simp [handleButtonEvent, hl, h]
  · intro h
    have hn : ¬ t - lastTimeOf s l < DEBOUNCE_TIME := not_lt.mpr (le_of_lt h)
    simp only [handleButtonEvent, hl, hn, if_false]
    constructor
    · split <;> simp
    · split <;> simp
  · intro h
    simp only [handleButtonEvent, hl]
    split
    · rfl
    · split <;> simp [h]
  · intro h
    simp only [handleButtonEvent, hl, h]
    split
    · simp
    · constructor
      · intro hc
        exfalso
        revert hc
        split <;> simp
      · intro hc
        exfalso
        revert hc
        split <;> simp

/-- A handler state with one recorded press of button A at time 9/10 and no
worker running. -/
def handlerStateA : HState :=
  { lastPressTime := fun l => if l = Label.A then some (9 / 10) else none,
    isProcessing := false }

/-- Witness for `debounce_per_button`: at time 1, 1/10 s after the recorded
press of A at 9/10, a press of A (line 5) is debounced with the state
unchanged; at time 2 it is accepted and records timestamp 2. -/
theorem debounce_per_button_witness :
    handleButtonEvent BUTTONS handlerStateA 5 1 = (handlerStateA, .debounced) ∧
    ((handleButtonEvent BUTTONS handlerStateA 5 2).2 ≠ HandlerResult.debounced ∧
      (handleButtonEvent BUTTONS handlerStateA 5 2).1.lastPressTime .A = some 2) :=
  ⟨(debounce_per_button BUTTONS handlerStateA handlerStateA 5 1 .A .B
      (by decide)).1 (by norm_num [lastTimeOf, handlerStateA, DEBOUNCE_TIME]),
   ((debounce_per_button BUTTONS handlerStateA handlerStateA 5 2 .A .B
      (by decide)).2).1 (by norm_num [lastTimeOf, handlerStateA, DEBOUNCE_TIME])⟩

/-- C5, counterexample: with a worker running (`is_processing` true), an edge
event whose line offset 99 is not among the configured offsets does NOT
leave the busy flag unchanged: the `except` branch of `_handle_button_event`
(lines 179-183) sets `is_processing = False`.  The debounce map is unchanged
and no worker is spawned, but the flag flips from `true` to `false`. -/
theorem unrecognized_line_clears_flag :
    handlerStateBusy.isProcessing = true ∧
    (handleButtonEvent BUTTONS handlerStateBusy 99 1).1.isProcessing = false ∧
    (handleButtonEvent BUTTONS handlerStateBusy 99 1).2 = .errorCaught := by
  refine ⟨rfl, ?_, ?_⟩ <;> rfl

/-- C5, amended: for every edge event whose line offset is not among the
configured offsets, the event handler leaves the debounce timestamp map
unchanged and spawns no dispatch worker, but — via the `except` branch that
"ensures we release the lock in case of error" — it sets the busy flag to
`false` regardless of its previous value. -/
theorem unrecognized_line_no_dispatch (offsets : List ℕ) (s : HState)
    (lineOffset : ℕ) (t : ℚ) (h : labelFor offsets lineOffset = none) :
    handleButtonEvent offsets s lineOffset t =
      ({ s with isProcessing := false }, .errorCaught) := by
  simp [handleButtonEvent, h]

/-- Witness for `unrecognized_line_no_dispatch` at offset 99 with the
standard offsets. -/
theorem unrecognized_line_no_dispatch_witness :
    handleButtonEvent BUTTONS handlerStateBusy 99 1 =
      ({ handlerStateBusy with isProcessing := false }, .errorCaught) :=
  unrecognized_line_no_dispatch BUTTONS handlerStateBusy 99 1 (by decide)

/-- C8: an event that passes the debounce check has the current time
recorded as its button's last-accepted timestamp *before* the busy-gate
check, so the timestamp is updated even when the press is then dropped
because a worker is busy; and no dispatch-worker action ever changes the
`last_press_time` map (a running worker never resets the debounce clock). -/
theorem timestamp_recorded_before_gate (offsets : List ℕ) (s : HState)
    (lineOffset : ℕ) (t : ℚ) (l : Label)
    (hl : labelFor offsets lineOffset = some l)
    (hd : ¬ t - lastTimeOf s l < DEBOUNCE_TIME)
    (hb : s.isProcessing = true) :
    (handleButtonEvent offsets s lineOffset t =
      ({ s with lastPressTime :=
          fun x => if x = l then some t else s.lastPressTime x },
        .droppedBusy)) ∧
    (∀ (g g' : GateSys) (a : GAct), Step g a g' → a.isWorkerAct = true →
      g'.lastPress = g.lastPress) := by
  constructor
  · simp [handleButtonEvent, hl, hd, hb]
  · intro g g' a hstep ha
    cases hstep <;> first | rfl | simp [GAct.isWorkerAct] at ha

/-- Witness for `timestamp_recorded_before_gate`: at time 1 with a worker
running, a press of A (line 5) is dropped by the gate but its timestamp is
recorded; and a concrete `setBusyFalse` worker step preserves the map. -/
theorem timestamp_recorded_before_gate_witness :
    (handleButtonEvent BUTTONS handlerStateBusy 5 1 =
      ({ handlerStateBusy with lastPressTime :=
          fun x => if x = Label.A then some 1 else handlerStateBusy.lastPressTime x },
        .droppedBusy)) ∧
    ({ initSys with nHaveLock := 0, nCleared := 1, busy := false } : GateSys).lastPress =
      ({ initSys with nHaveLock := 1 } : GateSys).lastPress :=
  have h := timestamp_recorded_before_gate BUTTONS handlerStateBusy 5 1 .A
    (by decide) (by norm_num [lastTimeOf, handlerStateBusy, DEBOUNCE_TIME]) rfl
  ⟨h.1, h.2 { initSys with nHaveLock := 1 }
    { initSys with nHaveLock := 0, nCleared := 1, busy := false } .setBusyFalse
    (Step.setBusyFalse { initSys with nHaveLock := 1 } (by simp [initSys])) rfl⟩

/-- C10: for a button with no previously recorded press, the debounce check
uses 0 as the last-accepted timestamp (`last_press_time.get(label, 0)`), so
for any current time at least `DEBOUNCE_TIME` after the epoch the press
passes the debounce filter and its timestamp is recorded. -/
theorem first_press_accepted (offsets : List ℕ) (s : HState) (lineOffset : ℕ)
    (t : ℚ) (l : Label) (hl : labelFor offsets lineOffset = some l)
    (hnone : s.lastPressTime l = none) (ht : DEBOUNCE_TIME ≤ t) :
    lastTimeOf s l = 0 ∧
    (handleButtonEvent offsets s lineOffset t).2 ≠ HandlerResult.debounced ∧
    (handleButtonEvent offsets s lineOffset t).1.lastPressTime l = some t := by
  have h0 : lastTimeOf s l = 0 := by simp [lastTimeOf, hnone]
  have hd : ¬ t - lastTimeOf s l < DEBOUNCE_TIME := by
    rw [h0]
    simp only [sub_zero, not_lt]
    exact ht
  refine ⟨h0, ?_, ?_⟩ <;> simp only [handleButtonEvent, hl, hd, if_false]
  · split <;> simp
  · split <;> simp

/-- Witness for `first_press_accepted`: the very first press of A (line 5)
at time 1 on the initial state passes the debounce filter. -/
theorem first_press_accepted_witness :
    lastTimeOf initHState .A = 0 ∧
    (handleButtonEvent BUTTONS initHState 5 1).2 ≠ HandlerResult.debounced ∧
    (handleButtonEvent BUTTONS initHState 5 1).1.lastPressTime .A = some 1 :=
  first_press_accepted BUTTONS initHState 5 1 .A (by decide) rfl
    (by norm_num [DEBOUNCE_TIME])

/-- The `try` block of `_process_button_async` never performs the gate
release itself: `releaseGate` only comes from the `finally` block. -/
theorem releaseGate_not_in_workerBody (env : WorkerEnv) (l : Label) :
    WEffect.releaseGate ∉ (workerBody env l).1 := by
  cases hr : env.getRefreshInfo with
  | error e => simp [workerBody, hr]
  | ok ri =>
    cases hp : ri.bind (fun r => r.pluginId) with
    | none => simp [workerBody, hr, hp]
    | some pid =>
      by_cases hpe : pid = ""
      · simp [workerBody, hr, hp, hpe]
      · cases hg : env.getPlugin pid with
        | error e => simp [workerBody, hr, hp, hpe, hg]
        | ok po =>
          cases po with
          | none => simp [workerBody, hr, hp, hpe, hg]
          | some pconf =>
            cases hi : env.getPluginInstance pconf with
            | error e => simp [workerBody, hr, hp, hpe, hg, hi]
            | ok plugin =>
              by_cases hcap : plugin.hasHandleButton = false
              · simp [workerBody, hr, hp, hpe, hg, hi, hcap]
              · cases hh : env.handleButton l with
                | error e => simp [workerBody, hr, hp, hpe, hg, hi, hcap, hh]
                | ok res =>
                  cases res with
                  | image img =>
                    cases hd : env.display img plugin.imageSettings with
                    | error e =>
                      simp [workerBody, hr, hp, hpe, hg, hi, hcap, hh, hd]
                    | ok u =>
                      cases hc : env.computeHash img with
                      | error e =>
                        simp [workerBody, hr, hp, hpe, hg, hi, hcap, hh, hd, hc]
                      | ok hsh =>
                        cases hw : env.writeConfig with
                        | error e =>
                          simp [workerBody, hr, hp, hpe, hg, hi, hcap, hh, hd,
                            hc, hw]
                        | ok u2 =>
                          simp [workerBody, hr, hp, hpe, hg, hi, hcap, hh, hd,
                            hc, hw]
                  | other v => simp [workerBody, hr, hp, hpe, hg, hi, hcap, hh]
                  | noneV => simp [workerBody, hr, hp, hpe, hg, hi, hcap, hh]

/-- C1: the busy flag is false before the first press (`__init__` sets
`is_processing = False`), and every dispatch worker — whatever the outcome
of plugin resolution, capability lookup, delegation, display update, or an
exception at any step (all quantified by `env`) — performs the gate release
exactly once, and leaves the flag false whatever its value on entry. -/
theorem gate_always_released :
    initHState.isProcessing = false ∧
    ∀ (env : WorkerEnv) (l : Label) (b : Bool),
      (processButtonAsync env l).effects.count WEffect.releaseGate = 1 ∧
      busyAfter b (processButtonAsync env l).effects = false := by
  refine ⟨rfl, fun env l b => ⟨?_, ?_⟩⟩
  · have h := releaseGate_not_in_workerBody env l
    simp [processButtonAsync, List.count_append,
      List.count_eq_zero.mpr h, List.count_singleton]
  · simp [processButtonAsync, busyAfter, List.foldl_append]

/-- C6: once the active plugin resolves to a capable delegate, a press whose
`handle_button` returns an image produces exactly one Display Sink delivery
with that plugin's configured `image_settings`, exactly one fingerprint
computation, one fingerprint write into the refresh-state record, and one
configuration persist (and the gate release) — and nothing else; a non-image,
non-`None` result is only logged and produces none of those effects. -/
theorem image_result_one_delivery (env : WorkerEnv) (l : Label)
    (ri : RefreshInfo) (pid : String) (pconf : ℕ) (plugin : Plugin)
    (h1 : env.getRefreshInfo = .ok (some ri)) (h2 : ri.pluginId = some pid)
    (h3 : ¬ pid = "") (h4 : env.getPlugin pid = .ok (some pconf))
    (h5 : env.getPluginInstance pconf = .ok plugin)
    (h6 : plugin.hasHandleButton = true) :
    (∀ (img hsh : ℕ), env.handleButton l = .ok (.image img) →
      env.display img plugin.imageSettings = .ok () →
      env.computeHash img = .ok hsh → env.writeConfig = .ok () →
      processButtonAsync env l =
        { effects := [.displayImage img plugin.imageSettings, .computeHash img,
            .setImageHash hsh, .writeConfig, .releaseGate],
          exceptionLogged := false }) ∧
    (∀ (v : String), env.handleButton l = .ok (.other v) →
      processButtonAsync env l =
        { effects := [.logOtherResult v, .releaseGate],
          exceptionLogged := false }) := by
  have hcap : ¬ plugin.hasHandleButton = false := by simp [h6]
  constructor
  · intro img hsh hh hd hc hw
    simp [processButtonAsync, workerBody, h1, h2, h3, h4, h5, hcap, hh, hd,
      hc, hw]
  · intro v hh
    simp [processButtonAsync, workerBody, h1, h2, h3, h4, h5, hcap, hh]

/-- C7: a press dispatched to a plugin whose delegate lacks `handle_button`
terminates without error and without side effects: the worker's only effect
is the gate release, so no Display Sink call is made and the refresh-state
record and configuration are untouched. -/
theorem no_capability_no_effects (env : WorkerEnv) (l : Label)
    (ri : RefreshInfo) (pid : String) (pconf : ℕ) (plugin : Plugin)
    (h1 : env.getRefreshInfo = .ok (some ri)) (h2 : ri.pluginId = some pid)
    (h3 : ¬ pid = "") (h4 : env.getPlugin pid = .ok (some pconf))
    (h5 : env.getPluginInstance pconf = .ok plugin)
    (h6 : plugin.hasHandleButton = false) :
    processButtonAsync env l =
      { effects := [.releaseGate], exceptionLogged := false } := by
  simp [processButtonAsync, workerBody, h1, h2, h3, h4, h5, h6]

/-- A capable plugin with two image-adjustment settings. -/
def pluginCapable : Plugin := { hasHandleButton := true, imageSettings := [1, 2] }

/-- A plugin without the button capability. -/
def pluginNoButton : Plugin := { hasHandleButton := false, imageSettings := [1, 2] }

/-- Refresh info naming active plugin "p1" with no stored hash. -/
def riP1 : RefreshInfo := { pluginId := some "p1", imageHash := none }

/-- Environment: active plugin "p1", capable delegate returning image 42,
all external calls succeeding; the fingerprint of image `i` is `i + 1`. -/
def envImage : WorkerEnv :=
  { getRefreshInfo := .ok (some riP1),
    getPlugin := fun _ => .ok (some 7),
    getPluginInstance := fun _ => .ok pluginCapable,
    handleButton := fun _ => .ok (.image 42),
    display := fun _ _ => .ok (),
    computeHash := fun i => .ok (i + 1),
    writeConfig := .ok () }

/-- Like `envImage` but the delegate returns the non-image value "done". -/
def envOther : WorkerEnv :=
  { envImage with handleButton := fun _ => .ok (.other "done") }

/-- Like `envImage` but the delegate lacks the button capability. -/
def envNoButton : WorkerEnv :=
  { envImage with getPluginInstance := fun _ => .ok pluginNoButton }

/-- Witness for `image_result_one_delivery` on `envImage` (image path) and
`envOther` (non-image path). -/
theorem image_result_one_delivery_witness :
    processButtonAsync envImage .A =
      { effects := [.displayImage 42 [1, 2], .computeHash 42, .setImageHash 43,
          .writeConfig, .releaseGate], exceptionLogged := false } ∧
    processButtonAsync envOther .A =
      { effects := [.logOtherResult "done", .releaseGate],
        exceptionLogged := false } :=
  ⟨(image_result_one_delivery envImage .A riP1 "p1" 7 pluginCapable rfl rfl
      (by decide) rfl rfl rfl).1 42 43 rfl rfl rfl rfl,
   (image_result_one_delivery envOther .A riP1 "p1" 7 pluginCapable rfl rfl
      (by decide) rfl rfl rfl).2 "done" rfl⟩

/-- Witness for `no_capability_no_effects` on `envNoButton`. -/
theorem no_capability_no_effects_witness :
    processButtonAsync envNoButton .A =
      { effects := [.releaseGate], exceptionLogged := false } :=
  no_capability_no_effects envNoButton .A riP1 "p1" 7 pluginNoButton rfl rfl
    (by decide) rfl rfl rfl

/-- A `start` environment in which the GPIO acquisition raises. -/
def startEnvFail : StartEnv := { threadAlive := false, acquire := .error "boom" }

/-- A `start` environment in which the GPIO acquisition succeeds with the
standard offsets. -/
def startEnvOk : StartEnv := { threadAlive := false, acquire := .ok BUTTONS }

/-- C9, counterexample: a Line Source acquisition failure is NOT observable
by the caller through `start()`'s return value.  `start` has only bare
`return`s and swallows the exception at lines 82-84, so it returns `None` on
the failing path exactly as on the successful path, and no
`HardwareInitError` value is ever produced. -/
theorem start_failure_not_observable :
    (startBH startEnvFail false).ret = (startBH startEnvOk false).ret ∧
    (startBH startEnvFail false).ret = none := ⟨rfl, rfl⟩

/-- C9, amended: if Line Source acquisition raises during `start()`, the
exception is caught, its cause is logged, the running flag is left false and
no poll-loop thread is launched (the controller stays stopped) — but the
failure is reported only through the log: the call returns `None`, just as a
successful call does, so the caller cannot observe it through the return
value. -/
theorem start_failure_leaves_stopped (env : StartEnv) (b : Bool) (e : String)
    (ha : env.threadAlive = false) (he : env.acquire = .error e) :
    startBH env b =
      { running := false, launchedThread := false, ret := none,
        loggedError := some e } := by
  simp [startBH, ha, he]

/-- Witness for `start_failure_leaves_stopped` on `startEnvFail`. -/
theorem start_failure_leaves_stopped_witness :
    startBH startEnvFail false =
      { running := false, launchedThread := false, ret := none,
        loggedError := some "boom" } :=
  start_failure_leaves_stopped startEnvFail false "boom" rfl rfl

/-- C4: evaluating `simulate_button_press` at the valid label "A" shows that
the entire body is a single log statement: no edge event is synthesized, no
call into `_handle_button_event` is made, and no handler state is read or
written, so a simulated press has none of the downstream behaviour
(debounce, gate, dispatch) of a real press.  This contradicts the spec's
§4.5, which requires the hook to feed a synthesized event through the same
event-handler path as genuine hardware events. -/
theorem simulate_only_logs :
    simulateButtonPress "A" = [SimEffect.logSimulating "A"] ∧
    simulateButtonPress "E" = [SimEffect.logInvalidLabel "E"] := by
  constructor <;> rfl

/-- C3, amended: for every interleaving of presses across the four buttons,
at most one dispatch worker is active at any instant (a worker counts as
active until it has executed `is_processing = False`; afterwards only its
lock release and a debug log remain), and a press that reads the busy flag
as true is dropped on the spot — the only state change is the poll thread
returning to idle, and the system has no queue to hold it.  Mutual exclusion
holds even though the busy check at line 158 is performed *without* holding
the gate lock (only the write at line 166 is under the lock), because every
check-and-set is executed by the single poll-loop thread. -/
theorem at_most_one_active_worker :
    (∀ s : GateSys, Reach s → activeWorkers s ≤ 1) ∧
    (∀ (s s' : GateSys) (l : Label), Step s (.checkBusyDrop l) s' →
      s.busy = true ∧ s' = { s with poll := .idle }) := by
  constructor
  · intro s hs
    have h := (reach_gateInv hs).1
    omega
  · intro s s' l h
    cases h with
    | checkBusyDrop l hp hb => exact ⟨hb, rfl⟩

/-- A state in which a press of A has passed debounce and is about to read
the busy flag while a just-dispatched worker is running. -/
def gateStateDrop : GateSys :=
  { busy := true, lock := .free,
    lastPress := fun x => if x = Label.A then some 1 else none,
    poll := .preCheck .A, nBody := 1, nWantLock := 0, nHaveLock := 0,
    nCleared := 0 }

/-- Witness for `at_most_one_active_worker`: the initial state has no active
worker, and from `gateStateDrop` (busy flag up, one worker in its body) the
flag read drops the press, changing nothing but the poll program counter. -/
theorem at_most_one_active_worker_witness :
    activeWorkers initSys ≤ 1 ∧
    (gateStateDrop.busy = true ∧
      ({ gateStateDrop with poll := .idle } : GateSys) =
        { gateStateDrop with poll := .idle }) :=
  ⟨at_most_one_active_worker.1 initSys Reach.init,
   at_most_one_active_worker.2 gateStateDrop
     { gateStateDrop with poll := .idle } .A
     (Step.checkBusyDrop gateStateDrop .A rfl rfl)⟩

/-- The reachable state refuting the atomicity part of the claim: button A
was pressed at time 1 and fully dispatched; its worker finished, entered the
`finally` block, acquired the gate lock and wrote `is_processing = False`,
but has not yet released the lock; meanwhile button B is pressed at time 1
and has passed the debounce filter. -/
def gateStateCheck : GateSys :=
  { busy := false, lock := .byWorker,
    lastPress := fun x =>
      if x = Label.B then some 1 else if x = Label.A then some 1 else none,
    poll := .preCheck .B, nBody := 0, nWantLock := 0, nHaveLock := 0,
    nCleared := 1 }

/-- C3, counterexample: `gateStateCheck` is reachable; in it a worker still
holds the gate lock (it is mid-`finally`, between clearing the flag and
releasing the lock), yet the poll thread's busy-flag check proceeds — the
`checkBusyPass` step is enabled without waiting for the lock.  Were the
check-and-set "atomic under the gate lock with respect to a
concurrently-finishing worker", as the claim states, the check could not
complete while the finishing worker holds the lock.  The source indeed
performs `if self.is_processing` (line 158) outside the
`with self.processing_lock` block. -/
theorem busy_check_runs_outside_lock :
    Reach gateStateCheck ∧ gateStateCheck.lock = .byWorker ∧
    0 < gateStateCheck.nCleared ∧
    Step gateStateCheck (.checkBusyPass .B)
      { gateStateCheck with poll := .checked .B } := by
  refine ⟨?_, rfl, Nat.zero_lt_one, Step.checkBusyPass gateStateCheck .B rfl rfl⟩
  have r1 := Reach.step _ _ _ Reach.init
    (Step.arriveAccepted initSys .A 1 rfl
      (by norm_num [initSys, DEBOUNCE_TIME, Option.getD]))
  have r2 := Reach.step _ _ _ r1 (Step.checkBusyPass _ .A rfl rfl)
  have r3 := Reach.step _ _ _ r2 (Step.acquirePoll _ .A rfl rfl)
  have r4 := Reach.step _ _ _ r3 (Step.setBusyTrue _ .A rfl)
  have r5 := Reach.step _ _ _ r4 (Step.releasePoll _ .A rfl rfl)
  have r6 := Reach.step _ _ _ r5 (Step.spawnWorker _ .A rfl)
  have r7 := Reach.step _ _ _ r6 (Step.finishBody _ (by decide))
  have r8 := Reach.step _ _ _ r7 (Step.acquireWorker _ (by decide) rfl)
  have r9 := Reach.step _ _ _ r8 (Step.setBusyFalse _ (by decide))
  have r10 := Reach.step _ _ _ r9
    (Step.arriveAccepted _ .B 1 rfl
      (by
        simp only [initSys, reduceCtorEq, if_false, reduceIte, Option.getD_none]
        norm_num [DEBOUNCE_TIME]))
  exact r10
